import Mathlib

/-!
Verification of the road-damage synthesis and hazard-classification core
of the `devjams_4_Brain_cells` repository, against its natural-language
specification.  Floating-point grids are modelled over `ℚ`, with an
explicit extended-value type `EF` capturing the IEEE special values
(`nan`, `±inf`) that the numpy pipeline can produce; transcendental
functions (`exp`, `cos`, `sin`, `deg2rad`) are abstracted as an oracle of
rational-valued functions, since no claim depends on their analytic
values.
-/

namespace RoadHazard

/-- Extended float value: either a finite rational or one of the IEEE
special values (`nan`, `+inf`, `-inf`) that numpy arithmetic can
produce, e.g. from division by zero. -/
inductive EF where
  | nan : EF
  | posinf : EF
  | neginf : EF
  | fin : ℚ → EF
deriving DecidableEq

/-- Division of two finite float values, as numpy performs it:
`0/0 = nan`, `x/0 = ±inf` for `x ≠ 0`, otherwise exact. -/
def qdivEF (x y : ℚ) : EF :=
  if y = 0 then (if x = 0 then .nan else if 0 < x then .posinf else .neginf)
  else .fin (x / y)

/-- Squaring (`** 2`) with IEEE special-value propagation. -/
def EF.sq : EF → EF
  | .nan => .nan
  | .posinf => .posinf
  | .neginf => .posinf
  | .fin x => .fin (x ^ 2)

/-- Addition with IEEE special-value propagation. -/
def EF.add : EF → EF → EF
  | .nan, _ => .nan
  | _, .nan => .nan
  | .posinf, .neginf => .nan
  | .neginf, .posinf => .nan
  | .posinf, _ => .posinf
  | _, .posinf => .posinf
  | .neginf, _ => .neginf
  | _, .neginf => .neginf
  | .fin x, .fin y => .fin (x + y)

/-- Multiplication with IEEE special-value propagation. -/
def EF.mul : EF → EF → EF
  | .nan, _ => .nan
  | _, .nan => .nan
  | .posinf, .fin y => if y = 0 then .nan else if 0 < y then .posinf else .neginf
  | .fin x, .posinf => if x = 0 then .nan else if 0 < x then .posinf else .neginf
  | .neginf, .fin y => if y = 0 then .nan else if 0 < y then .neginf else .posinf
  | .fin x, .neginf => if x = 0 then .nan else if 0 < x then .neginf else .posinf
  | .posinf, .posinf => .posinf
  | .posinf, .neginf => .neginf
  | .neginf, .posinf => .neginf
  | .neginf, .neginf => .posinf
  | .fin x, .fin y => .fin (x * y)

/-- Strict comparison `v > c` against a finite constant; false on `nan`
(IEEE comparison semantics, matching `ellipse_dist > 3.0` in numpy). -/
def EF.gtQ : EF → ℚ → Bool
  | .nan, _ => false
  | .posinf, _ => true
  | .neginf, _ => false
  | .fin x, c => decide (c < x)

/-- `np.maximum(v, 0)` — nan-propagating pointwise maximum with 0. -/
def EF.npMaximum0 : EF → EF
  | .nan => .nan
  | .posinf => .posinf
  | .neginf => .fin 0
  | .fin x => .fin (max x 0)

/-- `np.minimum(v, M)` for finite `M` — nan-propagating pointwise minimum. -/
def EF.npMinimum (M : ℚ) : EF → EF
  | .nan => .nan
  | .posinf => .fin M
  | .neginf => .neginf
  | .fin x => .fin (min x M)

/-- `np.clip(v, 0, M) = np.minimum(np.maximum(v, 0), M)`.  Note that for
`M < 0` this returns `M` on every finite input, not 0. -/
def EF.npClip (M : ℚ) (v : EF) : EF := EF.npMinimum M (EF.npMaximum0 v)

/-- Oracle of rational-valued stand-ins for the transcendental functions
used by the mask generator (`np.exp`, `np.cos`, `np.sin`, `np.deg2rad`).
No claim depends on their analytic values, so they are kept abstract. -/
structure RealOracle where
  exp : ℚ → ℚ
  cos : ℚ → ℚ
  sin : ℚ → ℚ
  deg2rad : ℚ → ℚ

/-- `exp(-d / 1.5)` applied to an extended value `d`: the base falloff of
the mask generator.  `exp(-inf) = 0`; `nan` propagates. -/
def EF.expNegDiv (expQ : ℚ → ℚ) : EF → EF
  | .nan => .nan
  | .posinf => .fin 0
  | .neginf => .posinf
  | .fin d => .fin (expQ (-d / (3 / 2)))

/-- One pixel `(i, j)` of `create_pothole_mask_rough`
(src/mainproject.py lines 8-35, identically src/hdf_generator.py 7-34):
integer offsets from the center, 2D rotation, normalized elliptical
distance, exponential falloff, multiplicative per-pixel noise
(`noise i j` models the `np.random.normal(1.0, 0.2)` draw at that
pixel), hard cutoff beyond distance 3.0, scaling by `max_depth` and
`np.clip` to `[0, max_depth]`. -/
def maskPixel (O : RealOracle) (noise : ℕ → ℕ → ℚ) (center : ℤ × ℤ)
    (radii : ℚ × ℚ) (max_depth rotation_deg : ℚ) (i j : ℕ) : EF :=
  let r : ℤ := (i : ℤ) - center.1
  let c : ℤ := (j : ℤ) - center.2
  let rotation_rad : ℚ := O.deg2rad rotation_deg
  let r_rot : ℚ := (r : ℚ) * O.cos rotation_rad - (c : ℚ) * O.sin rotation_rad
  let c_rot : ℚ := (r : ℚ) * O.sin rotation_rad + (c : ℚ) * O.cos rotation_rad
  let ellipse_dist : EF := EF.add (EF.sq (qdivEF c_rot radii.2)) (EF.sq (qdivEF r_rot radii.1))
  let base_mask : EF := EF.expNegDiv O.exp ellipse_dist
  let rough_mask : EF := EF.mul base_mask (EF.fin (noise i j))
  let rough_mask2 : EF := if EF.gtQ ellipse_dist 3 then EF.fin 0 else rough_mask
  EF.npClip max_depth (EF.mul rough_mask2 (EF.fin max_depth))

/-- `create_pothole_mask_rough(shape, center, radii, max_depth,
rotation_deg)` — the full mask array, row-major, of the requested
shape. -/
def create_pothole_mask_rough (O : RealOracle) (noise : ℕ → ℕ → ℚ)
    (shape : ℕ × ℕ) (center : ℤ × ℤ) (radii : ℚ × ℚ)
    (max_depth rotation_deg : ℚ) : List (List EF) :=
  (List.range shape.1).map fun i =>
    (List.range shape.2).map fun j =>
      maskPixel O noise center radii max_depth rotation_deg i j

/-! ### Hazard classifier (src/mainproject.py lines 118-193) -/

/-- `MAX_TOLERABLE_DEPTH_CM = 10.0` (src/mainproject.py line 125). -/
def MAX_TOLERABLE_DEPTH_CM : ℚ := 10

/-- `MAX_TOLERABLE_DENSITY = 0.007` (src/mainproject.py line 129). -/
def MAX_TOLERABLE_DENSITY : ℚ := 7 / 1000

/-- `MAX_MEAN_ROAD_DEPTH_CM = 0.5` (src/mainproject.py line 132). -/
def MAX_MEAN_ROAD_DEPTH_CM : ℚ := 1 / 2

/-- `HIGH_FREQUENCY_THRESHOLD = MAX_TOLERABLE_DENSITY * 1.5`
(src/mainproject.py line 135; defined in the source but unused by the
cascade). -/
def HIGH_FREQUENCY_THRESHOLD : ℚ := MAX_TOLERABLE_DENSITY * (3 / 2)

/-- `road_matrix[road_matrix > 0.5]` — the list of depths at damaged
pixels (`pothole_mask = road_matrix > 0.5`, src/mainproject.py 139). -/
def pothole_mask_depths (road_matrix : List (List ℚ)) : List ℚ :=
  road_matrix.flatten.filter (fun v => (1 : ℚ) / 2 < v)

/-- `np.max` over a nonempty list (returns 0 on `[]`; the classifier
only evaluates it when damage is present). -/
def npMaxQ : List ℚ → ℚ
  | [] => 0
  | x :: xs => xs.foldl max x

/-- `np.mean` of a list of rationals. -/
def npMeanQ (l : List ℚ) : ℚ := l.sum / (l.length : ℚ)

/-- `max_depth = np.max(damaged_depths)` for a grid. -/
def gridMaxDepth (road_matrix : List (List ℚ)) : ℚ :=
  npMaxQ (pothole_mask_depths road_matrix)

/-- `mean_pothole_depth = np.mean(damaged_depths)` for a grid. -/
def gridMeanDepth (road_matrix : List (List ℚ)) : ℚ :=
  npMeanQ (pothole_mask_depths road_matrix)

/-- `damage_density = total_damage_pixels / road_matrix.size`. -/
def gridDensity (road_matrix : List (List ℚ)) : ℚ :=
  ((pothole_mask_depths road_matrix).length : ℚ) / (road_matrix.flatten.length : ℚ)

/-- Python `f"{q:.1f}"` formatting of a (non-negative, in all uses here)
rational to one decimal place. -/
def fmt1 (q : ℚ) : String :=
  let n : ℤ := round (q * 10)
  toString (n / 10) ++ "." ++ toString (n.natAbs % 10)

/-- The classifier's result tuple
`(rating, reason, max_depth, mean_pothole_depth, total_damage_pixels)`. -/
structure HazardReport where
  rating : String
  reason : String
  max_depth : ℚ
  mean_depth : ℚ
  damaged_count : ℕ
deriving DecidableEq

/-- `generate_road_hazard_rating(road_matrix)`
(src/mainproject.py lines 137-193): threshold mask at 0.5 cm, early
return `Good` when nothing is damaged, otherwise metrics followed by the
ordered rule cascade. -/
def generate_road_hazard_rating (road_matrix : List (List ℚ)) : HazardReport :=
  let damaged_depths := pothole_mask_depths road_matrix
  let total_damage_pixels := damaged_depths.length
  if total_damage_pixels = 0 then
    ⟨"Good", "Road is perfectly smooth.", 0, 0, 0⟩
  else
    let max_depth := gridMaxDepth road_matrix
    let mean_pothole_depth := gridMeanDepth road_matrix
    let damage_density := gridDensity road_matrix
    if MAX_TOLERABLE_DEPTH_CM ≤ max_depth ∧ MAX_TOLERABLE_DENSITY ≤ damage_density then
      ⟨"HAZARDOUS",
        "Critical Severity & Frequency: Max depth (" ++ fmt1 max_depth ++
          "cm) AND damage density (" ++ fmt1 (damage_density * 10000) ++
          " per 10000) are both critical.",
        max_depth, mean_pothole_depth, total_damage_pixels⟩
    else if MAX_TOLERABLE_DEPTH_CM - 2 ≤ max_depth then
      ⟨"DANGEROUS",
        "Extreme Severity: Single pothole max depth (" ++ fmt1 max_depth ++
          "cm) is a severe hazard.",
        max_depth, mean_pothole_depth, total_damage_pixels⟩
    else if MAX_TOLERABLE_DENSITY ≤ damage_density then
      ⟨"CAUTIOUS",
        "Critical Frequency: Damage density (" ++ fmt1 (damage_density * 10000) ++
          " per 10000 pixels) is too high.",
        max_depth, mean_pothole_depth, total_damage_pixels⟩
    else if MAX_MEAN_ROAD_DEPTH_CM < mean_pothole_depth then
      ⟨"ROUGHNESS WARNING",
        "Roughness Warning: Average damage depth is high (" ++
          fmt1 mean_pothole_depth ++ "cm), repair soon.",
        max_depth, mean_pothole_depth, total_damage_pixels⟩
    else if MAX_TOLERABLE_DENSITY * (3 / 4) ≤ damage_density then
      ⟨"MAINTENANCE WARNING",
        "Maintenance Warning: Damage frequency is rising, approaching hazardous level.",
        max_depth, mean_pothole_depth, total_damage_pixels⟩
    else
      ⟨"Decent (Minor Damage)", "Minor surface defects present but safe for regular use.",
        max_depth, mean_pothole_depth, total_damage_pixels⟩

/-! ### Compositor (src/mainproject.py line 88, src/New.py lines 80-83) -/

/-- A grid of depth values, indexed by (row, col). -/
def GridF : Type := ℕ → ℕ → ℚ

/-- A local patch together with the clipped bounding box
`[r_min, r_max) × [c_min, c_max)` it is written into. -/
structure Patch where
  r_min : ℕ
  r_max : ℕ
  c_min : ℕ
  c_max : ℕ
  data : ℕ → ℕ → ℚ

/-- `road_matrix[r_min:r_max, c_min:c_max] =
np.maximum(road_matrix[r_min:r_max, c_min:c_max], mask)` — the
compositor's merge: inside the patch's box the pixel becomes the
pointwise maximum with the patch value, outside it is untouched. -/
def mergePatch (g : GridF) (p : Patch) : GridF := fun i j =>
  if p.r_min ≤ i ∧ i < p.r_max ∧ p.c_min ≤ j ∧ j < p.c_max then
    max (g i j) (p.data (i - p.r_min) (j - p.c_min))
  else g i j

/-- Folding a sequence of patch merges into a grid, as the synthesis
loop does one feature at a time. -/
def applyPatches (g : GridF) (ps : List Patch) : GridF := ps.foldl mergePatch g

/-- `np.zeros(...)` — the zero-filled grid that starts synthesis
(src/mainproject.py line 53). -/
def zeroGrid : GridF := fun _ _ => 0

/-! ### Bounding-box computation (src/mainproject.py lines 80-81,
src/hdf_generator.py lines 83-84) -/

/-- Python `int(q)` — truncation toward zero. -/
def truncQ (q : ℚ) : ℤ := if 0 ≤ q then ⌊q⌋ else ⌈q⌉

/-- `r_min = max(0, int(r_center - r_radius * 2))` and the three
companions, exactly as in the synthesis loop. -/
def bboxClip (rows cols : ℤ) (r_center c_center : ℤ) (r_radius c_radius : ℚ) :
    ℤ × ℤ × ℤ × ℤ :=
  (max 0 (truncQ ((r_center : ℚ) - r_radius * 2)),
   min rows (truncQ ((r_center : ℚ) + r_radius * 2)),
   max 0 (truncQ ((c_center : ℚ) - c_radius * 2)),
   min cols (truncQ ((c_center : ℚ) + c_radius * 2)))

/-! ### Rotation sampling (src/mainproject.py line 77,
src/hdf_generator.py line 80) -/

/-- `np.random.uniform(lo, hi)` given the underlying unit draw
`u ∈ [0, 1)`: numpy returns `lo + u * (hi - lo)`. -/
def np_uniform (lo hi u : ℚ) : ℚ := lo + u * (hi - lo)

/-- `rotation = np.random.uniform(0, 180)` — the rotation angle drawn
for each feature during synthesis, as a function of the unit draw. -/
def rotation_draw (u : ℚ) : ℚ := np_uniform 0 180 u

/-! ### Configuration validation (spec sections 4.3 and 7) -/

/-- Modelled from the spec: a severity tier entry
`{selection weight, depth range, radius range}` of the tier table
(spec section 3, SeverityTier).  The source scripts hard-code the tiers
as nested conditional branches and carry no such table. -/
structure SeverityTier where
  weight : ℚ
  depth_min : ℚ
  depth_max : ℚ
  radius_min : ℚ
  radius_max : ℚ
deriving DecidableEq

/-- Modelled from the spec: the FieldSynthesizer configuration
(spec section 4.3) — physical road dimensions, resolution, tier table
and feature-count range.  The source scripts hard-code all of these as
module constants and expose no configurable entry point. -/
structure SynthConfig where
  road_width_m : ℚ
  road_length_m : ℚ
  resolution_m_per_px : ℚ
  tier_table : List SeverityTier
  count_min : ℕ
  count_max : ℕ

/-- A tier whose depth range and radius range are both well-formed
(`min ≤ max`). -/
def SeverityTier.wellFormed (t : SeverityTier) : Bool :=
  decide (t.depth_min ≤ t.depth_max) && decide (t.radius_min ≤ t.radius_max)

/-- Modelled from the spec: fail-fast configuration validation
(spec section 7, ConfigurationError).  The source contains no
validation code; the checks and their error conditions follow the
spec's taxonomy verbatim: non-positive road dimensions, non-positive
resolution, empty or zero-total-weight tier table, empty feature-count
range, any tier with a malformed (min > max) range. -/
def checkConfig (cfg : SynthConfig) : Except String Unit :=
  if cfg.road_width_m ≤ 0 ∨ cfg.road_length_m ≤ 0 then
    .error "ConfigurationError: non-positive road dimensions"
  else if cfg.resolution_m_per_px ≤ 0 then
    .error "ConfigurationError: non-positive resolution"
  else if cfg.tier_table = [] ∨ (cfg.tier_table.map SeverityTier.weight).sum = 0 then
    .error "ConfigurationError: empty or zero-total-weight tier table"
  else if cfg.count_max < cfg.count_min then
    .error "ConfigurationError: empty feature-count range"
  else if cfg.tier_table.any (fun t => ! t.wellFormed) then
    .error "ConfigurationError: tier with malformed range"
  else
    .ok ()

/-- Modelled from the spec: `synthesize` validates its configuration
before any synthesis work begins, then composites the features (here
abstracted as the list of local patches their random draws produce)
into a zero-initialized grid.  On any invalid configuration it returns
the error and no grid, partial or otherwise. -/
def synthesize (cfg : SynthConfig) (features : List Patch) : Except String GridF :=
  match checkConfig cfg with
  | .error e => .error e
  | .ok _ => .ok (applyPatches zeroGrid features)

/-! ### Theorems -/

/-- Two successive merges commute: the pointwise maximum makes the
compositor insensitive to the order in which any two patches arrive. -/
theorem mergePatch_right_comm (g : GridF) (p q : Patch) :
    mergePatch (mergePatch g p) q = mergePatch (mergePatch g q) p := by
  funext i j
  simp only [mergePatch]
  by_cases hp : p.r_min ≤ i ∧ i < p.r_max ∧ p.c_min ≤ j ∧ j < p.c_max <;>
    by_cases hq : q.r_min ≤ i ∧ i < q.r_max ∧ q.c_min ≤ j ∧ j < q.c_max <;>
      simp [hp, hq, sup_right_comm]

/-- C4: the compositor's merge into the grid is a pointwise maximum,
hence merging the same patch twice yields the same grid as merging it
once, and merging a set of patches in any order (any permutation of the
feature list) yields the same final grid. -/
theorem merge_idempotent_order_independent (g : GridF) (p : Patch)
    (ps qs : List Patch) (hperm : ps.Perm qs) :
    mergePatch (mergePatch g p) p = mergePatch g p ∧
    applyPatches g ps = applyPatches g qs := by
  constructor
  · funext i j
    simp only [mergePatch]
    by_cases hp : p.r_min ≤ i ∧ i < p.r_max ∧ p.c_min ≤ j ∧ j < p.c_max <;>
      simp [hp, max_assoc]
  · exact hperm.foldl_eq' (fun x _ y _ z => mergePatch_right_comm z x y) g

/-- Witness for C4 at a concrete grid, patch and permutation. -/
theorem merge_idempotent_order_independent_witness :
    mergePatch (mergePatch zeroGrid ⟨0, 1, 0, 1, fun _ _ => 1⟩) ⟨0, 1, 0, 1, fun _ _ => 1⟩ =
      mergePatch zeroGrid ⟨0, 1, 0, 1, fun _ _ => 1⟩ ∧
    applyPatches zeroGrid [⟨0, 1, 0, 1, fun _ _ => 1⟩, ⟨1, 2, 1, 2, fun _ _ => 2⟩] =
      applyPatches zeroGrid [⟨1, 2, 1, 2, fun _ _ => 2⟩, ⟨0, 1, 0, 1, fun _ _ => 1⟩] :=
  merge_idempotent_order_independent zeroGrid ⟨0, 1, 0, 1, fun _ _ => 1⟩
    [⟨0, 1, 0, 1, fun _ _ => 1⟩, ⟨1, 2, 1, 2, fun _ _ => 2⟩]
    [⟨1, 2, 1, 2, fun _ _ => 2⟩, ⟨0, 1, 0, 1, fun _ _ => 1⟩]
    (List.Perm.swap _ _ _)

/-- A single merge of a patch with non-negative data preserves pointwise
non-negativity of the grid. -/
theorem mergePatch_nonneg (g : GridF) (p : Patch)
    (hg : ∀ i j, 0 ≤ g i j) (hp : ∀ i j, 0 ≤ p.data i j) :
    ∀ i j, 0 ≤ mergePatch g p i j := by
  intro i j
  simp only [mergePatch]
  by_cases h : p.r_min ≤ i ∧ i < p.r_max ∧ p.c_min ≤ j ∧ j < p.c_max <;>
    simp [h, le_max_iff, hg i j]

/-- Non-negativity propagates through any sequence of merges of
non-negative patches. -/
theorem applyPatches_nonneg (ps : List Patch) (g : GridF)
    (hg : ∀ i j, 0 ≤ g i j) (hp : ∀ q ∈ ps, ∀ i j, 0 ≤ q.data i j) :
    ∀ i j, 0 ≤ applyPatches g ps i j := by
  induction ps generalizing g with
  | nil => exact hg
  | cons p ps ih =>
    exact ih (mergePatch g p)
      (mergePatch_nonneg g p hg (hp p (List.mem_cons_self p ps)))
      (fun q hq => hp q (List.mem_cons_of_mem p hq))

/-- C5: every grid value stays non-negative throughout synthesis (the
grid starts zero-filled and is mutated only by pointwise-maximum merges
of non-negative patches), and each merge step leaves every pixel's value
greater than or equal to its previous value.  Finiteness is inherent to
the rational-valued model. -/
theorem grid_nonneg_and_monotone (g : GridF) (p : Patch) (ps : List Patch)
    (hp : ∀ q ∈ ps, ∀ i j, 0 ≤ q.data i j) :
    (∀ i j, g i j ≤ mergePatch g p i j) ∧
    (∀ i j, 0 ≤ applyPatches zeroGrid ps i j) := by
  constructor
  · intro i j
    simp only [mergePatch]
    by_cases h : p.r_min ≤ i ∧ i < p.r_max ∧ p.c_min ≤ j ∧ j < p.c_max <;>
      simp [h]
  · exact applyPatches_nonneg ps zeroGrid (fun _ _ => le_refl 0) hp

/-- Witness for C5 at a concrete grid, patch and non-negative patch
list. -/
theorem grid_nonneg_and_monotone_witness :
    (∀ i j, zeroGrid i j ≤ mergePatch zeroGrid ⟨0, 2, 0, 2, fun _ _ => 3⟩ i j) ∧
    (∀ i j, 0 ≤ applyPatches zeroGrid [⟨0, 2, 0, 2, fun _ _ => 3⟩] i j) :=
  grid_nonneg_and_monotone zeroGrid ⟨0, 2, 0, 2, fun _ _ => 3⟩
    [⟨0, 2, 0, 2, fun _ _ => 3⟩]
    (fun q hq i j => by
      rw [List.mem_singleton] at hq
      subst hq
      norm_num)

/-- C7 counterexample: the synthesis rotation draw is NOT uniform on
`[0, 360)`.  At unit draw `u = 1/2` the source's
`np.random.uniform(0, 180)` yields 90, while a uniform draw over
`[0, 360)` yields 180. -/
theorem rotation_not_full_turn_cex :
    rotation_draw (1 / 2) = 90 ∧ np_uniform 0 360 (1 / 2) = 180 ∧
      rotation_draw (1 / 2) ≠ np_uniform 0 360 (1 / 2) := by
  refine ⟨?_, ?_, ?_⟩ <;> norm_num [rotation_draw, np_uniform]

/-- C7 amended: during synthesis each feature's rotation angle is drawn
uniformly from the half-open interval `[0, 180)` degrees — the draw is
the affine image `u ↦ 180 * u` of the unit draw, with range
`[0, 180)`. -/
theorem rotation_uniform_half_turn (u : ℚ) (h0 : 0 ≤ u) (h1 : u < 1) :
    rotation_draw u = 180 * u ∧ 0 ≤ rotation_draw u ∧ rotation_draw u < 180 := by
  refine ⟨by norm_num [rotation_draw, np_uniform, mul_comm], ?_, ?_⟩
  · simp only [rotation_draw, np_uniform]
    nlinarith
  · simp only [rotation_draw, np_uniform]
    nlinarith

/-- Witness for the amended C7 at `u = 1/4`. -/
theorem rotation_uniform_half_turn_witness :
    (0 : ℚ) ≤ 1 / 4 ∧ (1 : ℚ) / 4 < 1 ∧
      (rotation_draw (1 / 4) = 180 * (1 / 4) ∧ 0 ≤ rotation_draw (1 / 4) ∧
        rotation_draw (1 / 4) < 180) :=
  ⟨by norm_num, by norm_num,
    rotation_uniform_half_turn (1 / 4) (by norm_num) (by norm_num)⟩

/-- Truncation toward zero is monotone. -/
theorem truncQ_mono {p q : ℚ} (h : p ≤ q) : truncQ p ≤ truncQ q := by
  unfold truncQ
  by_cases hp : 0 ≤ p <;> by_cases hq : 0 ≤ q
  · simp only [hp, hq, if_pos]
    exact Int.floor_le_floor h
  · exact absurd (hp.trans h) hq
  · simp only [hp, hq, if_pos, if_neg, ite_false, ite_true]
    calc ⌈p⌉ ≤ 0 := Int.ceil_le.mpr (by exact_mod_cast le_of_not_le hp)
    _ ≤ ⌊q⌋ := Int.floor_nonneg.mpr hq
  · simp only [hp, hq, if_neg, ite_false]
    exact Int.ceil_le_ceil h

/-- Truncation of a non-negative rational is non-negative. -/
theorem truncQ_nonneg {q : ℚ} (h : 0 ≤ q) : 0 ≤ truncQ q := by
  unfold truncQ
  simp only [h, if_pos]
  exact Int.floor_nonneg.mpr h

/-- Truncation is the identity on integers. -/
theorem truncQ_intCast (n : ℤ) : truncQ (n : ℚ) = n := by
  unfold truncQ
  by_cases h : (0 : ℚ) ≤ (n : ℚ) <;> simp [h]

/-- C10: for every generated feature whose center lies inside the grid's
interior margin (rows: `3 ≤ r_center < rows - 3`, cols:
`5 ≤ c_center < cols - 5`, as the synthesis loops draw them) and whose
radii are positive, the clipped bounding box
`center ± 2×radius` satisfies `0 ≤ r_min ≤ r_max ≤ rows` and
`0 ≤ c_min ≤ c_max ≤ cols`. -/
theorem bboxClip_bounds (rows cols r_center c_center : ℤ)
    (r_radius c_radius : ℚ)
    (hr1 : 3 ≤ r_center) (hr2 : r_center < rows - 3)
    (hc1 : 5 ≤ c_center) (hc2 : c_center < cols - 5)
    (hrr : 0 < r_radius) (hcr : 0 < c_radius) :
    0 ≤ (bboxClip rows cols r_center c_center r_radius c_radius).1 ∧
    (bboxClip rows cols r_center c_center r_radius c_radius).1 ≤
      (bboxClip rows cols r_center c_center r_radius c_radius).2.1 ∧
    (bboxClip rows cols r_center c_center r_radius c_radius).2.1 ≤ rows ∧
    0 ≤ (bboxClip rows cols r_center c_center r_radius c_radius).2.2.1 ∧
    (bboxClip rows cols r_center c_center r_radius c_radius).2.2.1 ≤
      (bboxClip rows cols r_center c_center r_radius c_radius).2.2.2 ∧
    (bboxClip rows cols r_center c_center r_radius c_radius).2.2.2 ≤ cols := by
  have haux : ∀ (n dim : ℤ) (rad : ℚ), 0 < rad → 3 ≤ n → n < dim - 3 →
      0 ≤ max 0 (truncQ ((n : ℚ) - rad * 2)) ∧
      max 0 (truncQ ((n : ℚ) - rad * 2)) ≤ min dim (truncQ ((n : ℚ) + rad * 2)) ∧
      min dim (truncQ ((n : ℚ) + rad * 2)) ≤ dim := by
    intro n dim rad hrad hn1 hn2
    have hnn : (0 : ℚ) ≤ (n : ℚ) + rad * 2 := by
      have : (3 : ℚ) ≤ (n : ℚ) := by exact_mod_cast hn1
      nlinarith
    have hb0 : 0 ≤ truncQ ((n : ℚ) + rad * 2) := truncQ_nonneg hnn
    have hab : truncQ ((n : ℚ) - rad * 2) ≤ truncQ ((n : ℚ) + rad * 2) :=
      truncQ_mono (by nlinarith)
    have han : truncQ ((n : ℚ) - rad * 2) ≤ n := by
      calc truncQ ((n : ℚ) - rad * 2) ≤ truncQ (n : ℚ) := truncQ_mono (by nlinarith)
      _ = n := truncQ_intCast n
    have hadim : truncQ ((n : ℚ) - rad * 2) ≤ dim := han.trans (by omega)
    refine ⟨le_max_left 0 _, ?_, min_le_left dim _⟩
    refine le_min (max_le (by omega) hadim) (max_le hb0 hab)
  obtain ⟨h1, h2, h3⟩ := haux r_center rows r_radius hrr hr1 hr2
  obtain ⟨h4, h5, h6⟩ := haux c_center cols c_radius hcr (by omega) (by omega)
  exact ⟨h1, h2, h3, h4, h5, h6⟩

/-- Witness for C10 at a concrete feature: 10×20 grid, center (3, 5),
radii (1, 1). -/
theorem bboxClip_bounds_witness :
    (3 : ℤ) ≤ 3 ∧ (3 : ℤ) < 10 - 3 ∧ (5 : ℤ) ≤ 5 ∧ (5 : ℤ) < 20 - 5 ∧
      (0 : ℚ) < 1 ∧
      (0 ≤ (bboxClip 10 20 3 5 1 1).1 ∧
        (bboxClip 10 20 3 5 1 1).1 ≤ (bboxClip 10 20 3 5 1 1).2.1 ∧
        (bboxClip 10 20 3 5 1 1).2.1 ≤ 10 ∧
        0 ≤ (bboxClip 10 20 3 5 1 1).2.2.1 ∧
        (bboxClip 10 20 3 5 1 1).2.2.1 ≤ (bboxClip 10 20 3 5 1 1).2.2.2 ∧
        (bboxClip 10 20 3 5 1 1).2.2.2 ≤ 20) :=
  ⟨by norm_num, by norm_num, by norm_num, by norm_num, by norm_num,
    bboxClip_bounds 10 20 3 5 1 1 (by norm_num) (by norm_num) (by norm_num)
      (by norm_num) (by norm_num) (by norm_num)⟩

/-- C2: for every grid in which no pixel exceeds the damage epsilon of
0.5 cm (in particular any all-zero grid), the classifier returns rating
`Good`, reason "Road is perfectly smooth." and statistics
`(0, 0, 0)`; the embedding is total, so this path never raises. -/
theorem classifier_smooth (g : List (List ℚ)) (h : ∀ v ∈ g.flatten, v ≤ 1 / 2) :
    generate_road_hazard_rating g = ⟨"Good", "Road is perfectly smooth.", 0, 0, 0⟩ := by
  have hd : pothole_mask_depths g = [] := by
    simp only [pothole_mask_depths, List.filter_eq_nil_iff, decide_eq_true_eq]
    exact fun v hv => not_lt.mpr (h v hv)
  unfold generate_road_hazard_rating
  rw [hd]
  simp

/-- Witness for C2: the 10×10 all-zero grid. -/
theorem classifier_smooth_witness :
    (∀ v ∈ (List.replicate 10 (List.replicate 10 (0 : ℚ))).flatten, v ≤ 1 / 2) ∧
      generate_road_hazard_rating (List.replicate 10 (List.replicate 10 (0 : ℚ))) =
        ⟨"Good", "Road is perfectly smooth.", 0, 0, 0⟩ :=
  have hz : ∀ v ∈ (List.replicate 10 (List.replicate 10 (0 : ℚ))).flatten, v ≤ 1 / 2 := by
    intro v hv
    rcases List.mem_flatten.mp hv with ⟨row, hrow, hv2⟩
    rw [List.eq_of_mem_replicate hrow] at hv2
    rw [List.eq_of_mem_replicate hv2]
    norm_num
  ⟨hz, classifier_smooth _ hz⟩

/-- C1: the hazard classifier applies its rules as an ordered cascade in
which the first matching rule determines the rating.  For every grid
with at least one damaged pixel: the rating is `HAZARDOUS` iff
`max_depth ≥ D_max` and `density ≥ Dens_max`; otherwise `DANGEROUS` iff
`max_depth ≥ D_max - 2`; otherwise `CAUTIOUS` iff
`density ≥ Dens_max`; otherwise `ROUGHNESS WARNING` iff
`mean_depth > Mean_max`; otherwise `MAINTENANCE WARNING` iff
`density ≥ 0.75 × Dens_max`; otherwise `Decent (Minor Damage)` — so
when the metrics match two or more rules, the earliest matching rule
wins. -/
theorem classifier_cascade (g : List (List ℚ))
    (h : (pothole_mask_depths g).length ≠ 0) :
    ((generate_road_hazard_rating g).rating = "HAZARDOUS" ↔
      (MAX_TOLERABLE_DEPTH_CM ≤ gridMaxDepth g ∧
        MAX_TOLERABLE_DENSITY ≤ gridDensity g)) ∧
    (¬(MAX_TOLERABLE_DEPTH_CM ≤ gridMaxDepth g ∧
        MAX_TOLERABLE_DENSITY ≤ gridDensity g) →
      ((generate_road_hazard_rating g).rating = "DANGEROUS" ↔
        MAX_TOLERABLE_DEPTH_CM - 2 ≤ gridMaxDepth g)) ∧
    (¬(MAX_TOLERABLE_DEPTH_CM ≤ gridMaxDepth g ∧
        MAX_TOLERABLE_DENSITY ≤ gridDensity g) →
      ¬(MAX_TOLERABLE_DEPTH_CM - 2 ≤ gridMaxDepth g) →
      ((generate_road_hazard_rating g).rating = "CAUTIOUS" ↔
        MAX_TOLERABLE_DENSITY ≤ gridDensity g)) ∧
    (¬(MAX_TOLERABLE_DEPTH_CM ≤ gridMaxDepth g ∧
        MAX_TOLERABLE_DENSITY ≤ gridDensity g) →
      ¬(MAX_TOLERABLE_DEPTH_CM - 2 ≤ gridMaxDepth g) →
      ¬(MAX_TOLERABLE_DENSITY ≤ gridDensity g) →
      ((generate_road_hazard_rating g).rating = "ROUGHNESS WARNING" ↔
        MAX_MEAN_ROAD_DEPTH_CM < gridMeanDepth g)) ∧
    (¬(MAX_TOLERABLE_DEPTH_CM ≤ gridMaxDepth g ∧
        MAX_TOLERABLE_DENSITY ≤ gridDensity g) →
      ¬(MAX_TOLERABLE_DEPTH_CM - 2 ≤ gridMaxDepth g) →
      ¬(MAX_TOLERABLE_DENSITY ≤ gridDensity g) →
      ¬(MAX_MEAN_ROAD_DEPTH_CM < gridMeanDepth g) →
      ((generate_road_hazard_rating g).rating = "MAINTENANCE WARNING" ↔
        MAX_TOLERABLE_DENSITY * (3 / 4) ≤ gridDensity g)) ∧
    (¬(MAX_TOLERABLE_DEPTH_CM ≤ gridMaxDepth g ∧
        MAX_TOLERABLE_DENSITY ≤ gridDensity g) →
      ¬(MAX_TOLERABLE_DEPTH_CM - 2 ≤ gridMaxDepth g) →
      ¬(MAX_TOLERABLE_DENSITY ≤ gridDensity g) →
      ¬(MAX_MEAN_ROAD_DEPTH_CM < gridMeanDepth g) →
      ¬(MAX_TOLERABLE_DENSITY * (3 / 4) ≤ gridDensity g) →
      (generate_road_hazard_rating g).rating = "Decent (Minor Damage)") := by
  simp only [generate_road_hazard_rating]
  rw [if_neg h]
  split_ifs with hA hB hC hD hE <;> refine ⟨?_, ?_, ?_, ?_, ?_, ?_⟩ <;> simp_all

/-- Witness for C1: a 1×1 grid with one 9 cm pothole (damaged, since
9 > 0.5), on which the cascade yields `DANGEROUS`. -/
theorem classifier_cascade_witness :
    (pothole_mask_depths [[(9 : ℚ)]]).length ≠ 0 ∧
    (((generate_road_hazard_rating [[(9 : ℚ)]]).rating = "HAZARDOUS" ↔
      (MAX_TOLERABLE_DEPTH_CM ≤ gridMaxDepth [[(9 : ℚ)]] ∧
        MAX_TOLERABLE_DENSITY ≤ gridDensity [[(9 : ℚ)]])) ∧
    (¬(MAX_TOLERABLE_DEPTH_CM ≤ gridMaxDepth [[(9 : ℚ)]] ∧
        MAX_TOLERABLE_DENSITY ≤ gridDensity [[(9 : ℚ)]]) →
      ((generate_road_hazard_rating [[(9 : ℚ)]]).rating = "DANGEROUS" ↔
        MAX_TOLERABLE_DEPTH_CM - 2 ≤ gridMaxDepth [[(9 : ℚ)]])) ∧
    (¬(MAX_TOLERABLE_DEPTH_CM ≤ gridMaxDepth [[(9 : ℚ)]] ∧
        MAX_TOLERABLE_DENSITY ≤ gridDensity [[(9 : ℚ)]]) →
      ¬(MAX_TOLERABLE_DEPTH_CM - 2 ≤ gridMaxDepth [[(9 : ℚ)]]) →
      ((generate_road_hazard_rating [[(9 : ℚ)]]).rating = "CAUTIOUS" ↔
        MAX_TOLERABLE_DENSITY ≤ gridDensity [[(9 : ℚ)]])) ∧
    (¬(MAX_TOLERABLE_DEPTH_CM ≤ gridMaxDepth [[(9 : ℚ)]] ∧
        MAX_TOLERABLE_DENSITY ≤ gridDensity [[(9 : ℚ)]]) →
      ¬(MAX_TOLERABLE_DEPTH_CM - 2 ≤ gridMaxDepth [[(9 : ℚ)]]) →
      ¬(MAX_TOLERABLE_DENSITY ≤ gridDensity [[(9 : ℚ)]]) →
      ((generate_road_hazard_rating [[(9 : ℚ)]]).rating = "ROUGHNESS WARNING" ↔
        MAX_MEAN_ROAD_DEPTH_CM < gridMeanDepth [[(9 : ℚ)]])) ∧
    (¬(MAX_TOLERABLE_DEPTH_CM ≤ gridMaxDepth [[(9 : ℚ)]] ∧
        MAX_TOLERABLE_DENSITY ≤ gridDensity [[(9 : ℚ)]]) →
      ¬(MAX_TOLERABLE_DEPTH_CM - 2 ≤ gridMaxDepth [[(9 : ℚ)]]) →
      ¬(MAX_TOLERABLE_DENSITY ≤ gridDensity [[(9 : ℚ)]]) →
      ¬(MAX_MEAN_ROAD_DEPTH_CM < gridMeanDepth [[(9 : ℚ)]]) →
      ((generate_road_hazard_rating [[(9 : ℚ)]]).rating = "MAINTENANCE WARNING" ↔
        MAX_TOLERABLE_DENSITY * (3 / 4) ≤ gridDensity [[(9 : ℚ)]])) ∧
    (¬(MAX_TOLERABLE_DEPTH_CM ≤ gridMaxDepth [[(9 : ℚ)]] ∧
        MAX_TOLERABLE_DENSITY ≤ gridDensity [[(9 : ℚ)]]) →
      ¬(MAX_TOLERABLE_DEPTH_CM - 2 ≤ gridMaxDepth [[(9 : ℚ)]]) →
      ¬(MAX_TOLERABLE_DENSITY ≤ gridDensity [[(9 : ℚ)]]) →
      ¬(MAX_MEAN_ROAD_DEPTH_CM < gridMeanDepth [[(9 : ℚ)]]) →
      ¬(MAX_TOLERABLE_DENSITY * (3 / 4) ≤ gridDensity [[(9 : ℚ)]]) →
      (generate_road_hazard_rating [[(9 : ℚ)]]).rating = "Decent (Minor Damage)")) :=
  have h9 : (pothole_mask_depths [[(9 : ℚ)]]).length ≠ 0 := by
    norm_num [pothole_mask_depths, List.filter]
  ⟨h9, classifier_cascade [[(9 : ℚ)]] h9⟩

/-- Division of finite values by a nonzero denominator is exact. -/
theorem qdivEF_of_ne (x : ℚ) {y : ℚ} (hy : y ≠ 0) : qdivEF x y = .fin (x / y) := by
  simp [qdivEF, hy]

/-- With nonzero radii every pixel value is finite and of the clipped
form `min (max (t * max_depth) 0) max_depth` for some rational `t`. -/
theorem maskPixel_fin_form (O : RealOracle) (noise : ℕ → ℕ → ℚ) (center : ℤ × ℤ)
    (radii : ℚ × ℚ) (max_depth rotation_deg : ℚ) (i j : ℕ)
    (h1 : radii.1 ≠ 0) (h2 : radii.2 ≠ 0) :
    ∃ t : ℚ, maskPixel O noise center radii max_depth rotation_deg i j =
      EF.fin (min (max (t * max_depth) 0) max_depth) := by
  unfold maskPixel
  simp only [qdivEF_of_ne _ h1, qdivEF_of_ne _ h2]
  split
  · exact ⟨0, rfl⟩
  · exact ⟨_, rfl⟩

/-- A concrete oracle and noise stream for witnesses: `exp` and `cos`
constantly 1, `sin` and `deg2rad` constantly 0, noise constantly 1. -/
def oracle1 : RealOracle := ⟨fun _ => 1, fun _ => 1, fun _ => 0, fun _ => 0⟩

/-- Constant unit noise stream for witnesses. -/
def noise1 : ℕ → ℕ → ℚ := fun _ _ => 1

/-- C3: for every call of the mask generator with positive radii and
`max_depth > 0`, the returned array has exactly the requested shape and
every element is a finite value in the closed interval
`[0, max_depth]`. -/
theorem mask_shape_and_range (O : RealOracle) (noise : ℕ → ℕ → ℚ) (shape : ℕ × ℕ)
    (center : ℤ × ℤ) (radii : ℚ × ℚ) (max_depth rotation_deg : ℚ)
    (h1 : 0 < radii.1) (h2 : 0 < radii.2) (h3 : 0 < max_depth) :
    (create_pothole_mask_rough O noise shape center radii max_depth rotation_deg).length
        = shape.1 ∧
    (∀ row ∈ create_pothole_mask_rough O noise shape center radii max_depth rotation_deg,
      row.length = shape.2) ∧
    (∀ row ∈ create_pothole_mask_rough O noise shape center radii max_depth rotation_deg,
      ∀ v ∈ row, ∃ q : ℚ, v = EF.fin q ∧ 0 ≤ q ∧ q ≤ max_depth) := by
  refine ⟨by simp [create_pothole_mask_rough], ?_, ?_⟩
  · intro row hrow
    simp only [create_pothole_mask_rough, List.mem_map] at hrow
    obtain ⟨i, _, rfl⟩ := hrow
    simp
  · intro row hrow v hv
    simp only [create_pothole_mask_rough, List.mem_map] at hrow
    obtain ⟨i, _, rfl⟩ := hrow
    simp only [List.mem_map] at hv
    obtain ⟨j, _, rfl⟩ := hv
    obtain ⟨t, ht⟩ :=
      maskPixel_fin_form O noise center radii max_depth rotation_deg i j h1.ne' h2.ne'
    exact ⟨min (max (t * max_depth) 0) max_depth, ht,
      le_min (le_max_right _ _) h3.le, min_le_right _ _⟩

/-- Witness for C3: a 2×2 mask with radii (1, 1) and depth 2. -/
theorem mask_shape_and_range_witness :
    (0 : ℚ) < 1 ∧ (0 : ℚ) < 2 ∧
    ((create_pothole_mask_rough oracle1 noise1 (2, 2) (0, 0) (1, 1) 2 0).length = 2 ∧
    (∀ row ∈ create_pothole_mask_rough oracle1 noise1 (2, 2) (0, 0) (1, 1) 2 0,
      row.length = 2) ∧
    (∀ row ∈ create_pothole_mask_rough oracle1 noise1 (2, 2) (0, 0) (1, 1) 2 0,
      ∀ v ∈ row, ∃ q : ℚ, v = EF.fin q ∧ 0 ≤ q ∧ q ≤ 2)) :=
  ⟨by norm_num, by norm_num,
    mask_shape_and_range oracle1 noise1 (2, 2) (0, 0) (1, 1) 2 0
      (by norm_num) (by norm_num) (by norm_num)⟩

/-- C6 counterexample: a degenerate call with `max_depth = -1 < 0` does
NOT yield an all-zero array — `np.clip(·, 0, max_depth)` with a negative
upper bound sets every element to `max_depth`.  Here the 1×1 mask comes
back as `[[-1]]`, not `[[0]]`. -/
theorem mask_negative_depth_cex :
    create_pothole_mask_rough oracle1 noise1 (1, 1) (0, 0) (1, 1) (-1) 0 =
        [[EF.fin (-1)]] ∧
      EF.fin (-1) ≠ EF.fin (0 : ℚ) := by
  constructor
  · have hr : List.range 1 = [0] := rfl
    simp only [create_pothole_mask_rough, hr, List.map_cons, List.map_nil]
    norm_num [maskPixel, oracle1, noise1, qdivEF, EF.sq, EF.add, EF.expNegDiv,
      EF.mul, EF.gtQ, EF.npClip, EF.npMaximum0, EF.npMinimum]
  · simp

/-- C6 amended: with nonzero radii, a call with `max_depth = 0` yields
an all-zero array of the requested shape, and a zero-area shape yields
an array with no elements (the shape conjuncts force emptiness); but for
`max_depth < 0` every element equals `max_depth` — the value `np.clip`
assigns when its upper bound lies below its lower bound — rather than
zero.  No error is raised in any case (the embedding is total). -/
theorem mask_degenerate_amended (O : RealOracle) (noise : ℕ → ℕ → ℚ) (shape : ℕ × ℕ)
    (center : ℤ × ℤ) (radii : ℚ × ℚ) (max_depth rotation_deg : ℚ)
    (h1 : radii.1 ≠ 0) (h2 : radii.2 ≠ 0) :
    (create_pothole_mask_rough O noise shape center radii max_depth rotation_deg).length
        = shape.1 ∧
    (∀ row ∈ create_pothole_mask_rough O noise shape center radii max_depth rotation_deg,
      row.length = shape.2) ∧
    (max_depth = 0 →
      ∀ row ∈ create_pothole_mask_rough O noise shape center radii max_depth rotation_deg,
        ∀ v ∈ row, v = EF.fin 0) ∧
    (max_depth < 0 →
      ∀ row ∈ create_pothole_mask_rough O noise shape center radii max_depth rotation_deg,
        ∀ v ∈ row, v = EF.fin max_depth) := by
  refine ⟨by simp [create_pothole_mask_rough], ?_, ?_, ?_⟩
  · intro row hrow
    simp only [create_pothole_mask_rough, List.mem_map] at hrow
    obtain ⟨i, _, rfl⟩ := hrow
    simp
  · intro hmd row hrow v hv
    simp only [create_pothole_mask_rough, List.mem_map] at hrow
    obtain ⟨i, _, rfl⟩ := hrow
    simp only [List.mem_map] at hv
    obtain ⟨j, _, rfl⟩ := hv
    obtain ⟨t, ht⟩ :=
      maskPixel_fin_form O noise center radii max_depth rotation_deg i j h1 h2
    rw [ht, hmd]
    norm_num
  · intro hmd row hrow v hv
    simp only [create_pothole_mask_rough, List.mem_map] at hrow
    obtain ⟨i, _, rfl⟩ := hrow
    simp only [List.mem_map] at hv
    obtain ⟨j, _, rfl⟩ := hv
    obtain ⟨t, ht⟩ :=
      maskPixel_fin_form O noise center radii max_depth rotation_deg i j h1 h2
    rw [ht]
    have : min (max (t * max_depth) 0) max_depth = max_depth :=
      min_eq_right (hmd.le.trans (le_max_right _ _))
    rw [this]

/-- Witness for the amended C6: radii (1, 1), `max_depth = 0`, on a
2×3 mask. -/
theorem mask_degenerate_amended_witness :
    (1 : ℚ) ≠ 0 ∧
    ((create_pothole_mask_rough oracle1 noise1 (2, 3) (0, 0) (1, 1) 0 0).length = 2 ∧
    (∀ row ∈ create_pothole_mask_rough oracle1 noise1 (2, 3) (0, 0) (1, 1) 0 0,
      row.length = 3) ∧
    ((0 : ℚ) = 0 →
      ∀ row ∈ create_pothole_mask_rough oracle1 noise1 (2, 3) (0, 0) (1, 1) 0 0,
        ∀ v ∈ row, v = EF.fin 0) ∧
    ((0 : ℚ) < 0 →
      ∀ row ∈ create_pothole_mask_rough oracle1 noise1 (2, 3) (0, 0) (1, 1) 0 0,
        ∀ v ∈ row, v = EF.fin 0)) :=
  ⟨by norm_num,
    mask_degenerate_amended oracle1 noise1 (2, 3) (0, 0) (1, 1) 0 0
      (by norm_num) (by norm_num)⟩

/-- At the center pixel, a zero row-radius makes the elliptical distance
`0/0 = NaN`, and the NaN survives the whole pipeline to the output. -/
theorem maskPixel_center_nan (O : RealOracle) (noise : ℕ → ℕ → ℚ) (ci cj : ℕ)
    (r2 max_depth rotation_deg : ℚ) :
    maskPixel O noise ((ci : ℤ), (cj : ℤ)) (0, r2) max_depth rotation_deg ci cj =
      EF.nan := by
  unfold maskPixel
  by_cases hr2 : r2 = 0 <;>
    simp [hr2, qdivEF, EF.sq, EF.add, EF.expNegDiv, EF.mul, EF.gtQ, EF.npClip,
      EF.npMaximum0, EF.npMinimum]

/-- C9 counterexample: a damage feature with non-positive (zero)
row-radius reaches the mask generator and the generator neither
validates nor errors — it returns normally with an array containing
NaN: the 1×1 mask for radii `(0, 1)` is `[[NaN]]`. -/
theorem mask_no_validation_cex :
    create_pothole_mask_rough oracle1 noise1 (1, 1) (0, 0) (0, 1) 5 0 = [[EF.nan]] := by
  have hr : List.range 1 = [0] := rfl
  simp only [create_pothole_mask_rough, hr, List.map_cons, List.map_nil]
  exact congrArg (fun v => [[v]]) (maskPixel_center_nan oracle1 noise1 0 0 1 5 0)

/-- C9 amended: the mask generator performs no radius validation.  When
a feature with zero row-radius reaches it (center anywhere inside the
requested patch), it returns normally and the output array contains a
NaN value at the center pixel — produced by the `0/0` division — instead
of an error being surfaced.  (A strictly negative radius, by contrast,
enters only through its square and produces an ordinary mask.) -/
theorem mask_zero_radius_nan (O : RealOracle) (noise : ℕ → ℕ → ℚ)
    (rows cols ci cj : ℕ) (r2 max_depth rotation_deg : ℚ)
    (hi : ci < rows) (hj : cj < cols) :
    ∃ row ∈ create_pothole_mask_rough O noise (rows, cols) ((ci : ℤ), (cj : ℤ))
        (0, r2) max_depth rotation_deg, EF.nan ∈ row := by
  refine ⟨(List.range cols).map
    (fun j => maskPixel O noise ((ci : ℤ), (cj : ℤ)) (0, r2) max_depth rotation_deg ci j),
    ?_, ?_⟩
  · simp only [create_pothole_mask_rough, List.mem_map]
    exact ⟨ci, List.mem_range.mpr hi, rfl⟩
  · rw [List.mem_map]
    exact ⟨cj, List.mem_range.mpr hj,
      maskPixel_center_nan O noise ci cj r2 max_depth rotation_deg⟩

/-- Witness for the amended C9: a 2×3 patch with the center at (1, 2)
and radii (0, 1). -/
theorem mask_zero_radius_nan_witness :
    1 < 2 ∧ 2 < 3 ∧
      ∃ row ∈ create_pothole_mask_rough oracle1 noise1 (2, 3) (((1 : ℕ) : ℤ), ((2 : ℕ) : ℤ))
          (0, 1) 5 0, EF.nan ∈ row :=
  ⟨by norm_num, by norm_num,
    mask_zero_radius_nan oracle1 noise1 2 3 1 2 1 5 0 (by norm_num) (by norm_num)⟩

/-- C8 (spec-modelled): for every invalid configuration — non-positive
road dimensions, non-positive resolution, empty or zero-total-weight
tier table, empty feature-count range, or any tier with a min > max
range — `synthesize` returns a ConfigurationError and produces no grid,
partial or otherwise. -/
theorem synthesize_invalid_config (cfg : SynthConfig) (features : List Patch)
    (h : cfg.road_width_m ≤ 0 ∨ cfg.road_length_m ≤ 0 ∨
      cfg.resolution_m_per_px ≤ 0 ∨ cfg.tier_table = [] ∨
      (cfg.tier_table.map SeverityTier.weight).sum = 0 ∨
      cfg.count_max < cfg.count_min ∨
      ∃ t ∈ cfg.tier_table, t.depth_max < t.depth_min ∨ t.radius_max < t.radius_min) :
    ∃ e, synthesize cfg features = Except.error e := by
  unfold synthesize checkConfig
  split_ifs with h1 h2 h3 h4 h5
  · exact ⟨_, rfl⟩
  · exact ⟨_, rfl⟩
  · exact ⟨_, rfl⟩
  · exact ⟨_, rfl⟩
  · exact ⟨_, rfl⟩
  · exfalso
    push_neg at h1 h3
    rcases h with h | h | h | h | h | h | h
    · exact absurd h (not_le.mpr h1.1)
    · exact absurd h (not_le.mpr h1.2)
    · exact h2 h
    · exact h3.1 h
    · exact h3.2 h
    · exact h4 h
    · obtain ⟨t, ht, hbad⟩ := h
      have h5' : ∀ t ∈ cfg.tier_table, t.depth_min ≤ t.depth_max ∧
          t.radius_min ≤ t.radius_max := by
        intro u hu
        by_contra hc
        exact h5 (List.any_eq_true.mpr ⟨u, hu, by
          simp only [SeverityTier.wellFormed, Bool.not_eq_true', Bool.and_eq_false_iff,
            decide_eq_false_iff_not]
          rcases not_and_or.mp hc with hd | hd
          · exact Or.inl hd
          · exact Or.inr hd⟩)
      rcases hbad with hb | hb
      · exact absurd (h5' t ht).1 (not_le.mpr hb)
      · exact absurd (h5' t ht).2 (not_le.mpr hb)

/-- A concrete invalid configuration: negative road width. -/
def badConfig : SynthConfig := ⟨-1, 100, 1 / 10, [⟨1, 1, 2, 1, 2⟩], 0, 5⟩

/-- Witness for C8 at `badConfig`. -/
theorem synthesize_invalid_config_witness :
    (badConfig.road_width_m ≤ 0 ∨ badConfig.road_length_m ≤ 0 ∨
      badConfig.resolution_m_per_px ≤ 0 ∨ badConfig.tier_table = [] ∨
      (badConfig.tier_table.map SeverityTier.weight).sum = 0 ∨
      badConfig.count_max < badConfig.count_min ∨
      ∃ t ∈ badConfig.tier_table,
        t.depth_max < t.depth_min ∨ t.radius_max < t.radius_min) ∧
    ∃ e, synthesize badConfig [] = Except.error e :=
  have hh : badConfig.road_width_m ≤ 0 ∨ badConfig.road_length_m ≤ 0 ∨
      badConfig.resolution_m_per_px ≤ 0 ∨ badConfig.tier_table = [] ∨
      (badConfig.tier_table.map SeverityTier.weight).sum = 0 ∨
      badConfig.count_max < badConfig.count_min ∨
      ∃ t ∈ badConfig.tier_table,
        t.depth_max < t.depth_min ∨ t.radius_max < t.radius_min :=
    Or.inl (by norm_num [badConfig])
  ⟨hh, synthesize_invalid_config badConfig [] hh⟩

end RoadHazard
